import Mathlib

/-!
# Verification of the Video_search_engine scene-retrieval pipeline

Shallow embedding of the three source files of the repository
(`video_search_by_video.py`, `video_search_by_image.py`, `image_helpers.py`)
and proofs about the embedded algorithms.

Conventions of the embedding:
* Python strings are `String` (or `List Char` for character-level work).
* Python floats are modelled as exact rationals `ℚ`; the numeric literals of
  the claims (`3723.5` and so on) are exactly representable, so no rounding
  behaviour of binary floating point is involved in any settled statement.
* Python `int(x)` on a float is truncation toward zero, modelled by `pyTrunc`.
* Fallible operations return `Option`/`Except`; a Python exception that the
  source catches becomes a `none` that the embedded caller inspects, and an
  exception the source does not catch becomes an `Except.error` result.
* External effectful collaborators (OpenCV decode results, the fuzzywuzzy
  similarity score, the remote file state) are parameters of the embedded
  functions, so every theorem quantifies over their behaviour.
-/

namespace VideoSearch

/-! ## Time-code parser (`video_search_by_video.py`, line 141)

Python source:
`time_in_seconds = sum(float(x) * 60 ** i for i, x in enumerate(reversed(time_point.split(':'))))`
wrapped in `try/except ValueError`. -/

/-- Numeric value of a list of decimal digits, most significant first
(the usual positional reading that Python `float` gives to the digit runs
of a decimal literal). -/
def digitsToNat (l : List Char) : ℕ :=
  l.foldl (fun a c => 10 * a + (c.toNat - 48)) 0

/-- Model of Python float: `pyFloat l` models Python `float(s)` on unsigned decimal literals:
digit run, optionally split by a single point, with at least one digit
(`"3"`, `"03.5"`, `".5"`, `"3."` parse; `""`, `"."`, `"ab"` raise
`ValueError`, modelled as `none`). The time-code fields produced by the
external model are of exactly this shape. -/
def pyFloat (l : List Char) : Option ℚ :=
  match l.splitOn '.' with
  | [intPart] =>
      if intPart ≠ [] ∧ intPart.all Char.isDigit then
        some (digitsToNat intPart)
      else none
  | [intPart, fracPart] =>
      if (intPart ++ fracPart) ≠ [] ∧ (intPart ++ fracPart).all Char.isDigit then
        some ((digitsToNat intPart : ℚ) + (digitsToNat fracPart : ℚ) / 10 ^ fracPart.length)
      else none
  | _ => none

/-- The summation of the Python generator expression: the fields are already
reversed, `i` is the running index of `enumerate`, and a `ValueError` from
`float` aborts the whole sum (modelled by `none`). -/
def parseSum : List (List Char) → ℕ → Option ℚ
  | [], _ => some 0
  | f :: rest, i =>
      match pyFloat f, parseSum rest (i + 1) with
      | some v, some r => some (v * 60 ^ i + r)
      | _, _ => none

/-- Model of the time-code parse: `parseTimePoint` models line 141 of `video_search_by_video.py`:
split the time point on `':'`, reverse, and sum `float(field) * 60 ^ i`. -/
def parseTimePoint (s : List Char) : Option ℚ :=
  parseSum (s.splitOn ':').reverse 0

/-- The spec's formula for a time code, written the way §4.1 states it:
each field's value times 60 raised to its position counted from the right
(rightmost position 0). The list is in original left-to-right order. -/
def specTimeValue : List ℚ → ℚ
  | [] => 0
  | v :: rest => v * 60 ^ rest.length + specTimeValue rest

/-- Helper: the value of an already-reversed list of fields with starting
exponent `i`, mirroring `parseSum` on the value level. -/
def revValue : List ℚ → ℕ → ℚ
  | [], _ => 0
  | v :: rest, i => v * 60 ^ i + revValue rest (i + 1)

/-- Number of grid columns chosen by `create_collage` for `num_images` images. -/
def collageCols (num_images : ℕ) : ℕ :=
  if num_images = 1 then 1 else Nat.sqrt num_images + 1

/-- Number of grid rows chosen by `create_collage` for `num_images` images. -/
def collageRows (num_images : ℕ) : ℕ :=
  num_images / collageCols num_images +
    (if num_images % collageCols num_images ≠ 0 then 1 else 0)

/-- Python `int()` applied to a float: truncation toward zero. -/
def pyTrunc (q : ℚ) : ℤ := if 0 ≤ q then ⌊q⌋ else ⌈q⌉

/-- Line 146: `frame_number = int(time_in_seconds * frames_per_second)`. -/
def frameNumber (time_in_seconds frames_per_second : ℚ) : ℤ :=
  pyTrunc (time_in_seconds * frames_per_second)

/-- Line 151: the output path `frame_{int(time_in_seconds)}s.jpg` joined to the
output directory — it depends on the offset only through `pyTrunc`. -/
def frameFile (output_dir : String) (time_in_seconds : ℚ) : String :=
  output_dir ++ "/frame_" ++ toString (pyTrunc time_in_seconds) ++ "s.jpg"

/-- An element of the `time_points` argument. The caller `search_by_video`
passes the `json.loads` decoding of the model's reply, so an element is a
JSON string or a JSON number. Only a string supports `.split(':')`; a number
raises `AttributeError` there, which the `except ValueError` of lines 142-144
does not catch. -/
inductive TimePoint
  | str (s : String)
  | num (q : ℚ)
deriving DecidableEq

/-- Result of `video.set(...)` + `video.read()` at a frame index: OpenCV
returns `(True, frame)` or `(False, _)`. -/
inductive FrameOutcome
  | decoded
  | notDecoded
deriving DecidableEq

/-- The diagnostics printed by the extraction loop (lines 143 and 155). -/
inductive Diag
  | invalidTimePoint (tp : String)
  | couldNotExtract (tp : String)
deriving DecidableEq

/-- The Python exceptions `extract_frames_from_video` can raise or let
propagate. -/
inductive PyErr
  | fileNotFoundError (msg : String)
  | valueError (msg : String)
  | attributeError (msg : String)
deriving DecidableEq

/-- The `for time_point in time_points` loop, lines 138-155, with the
`extracted_files` list and the printed diagnostics as accumulators. The third
component is the exception that aborts the loop, if any. -/
def extractLoop (fps : ℚ) (read : ℤ → FrameOutcome) (output_dir : String) :
    List TimePoint → List String → List Diag →
    List String × List Diag × Option PyErr
  | [], files, diags => (files, diags, none)
  | tp :: rest, files, diags =>
      match tp with
      | TimePoint.num _ =>
          (files, diags,
            some (PyErr.attributeError "float object has no attribute split"))
      | TimePoint.str s =>
          match parseTimePoint s.data with
          | none =>
              extractLoop fps read output_dir rest files
                (diags ++ [Diag.invalidTimePoint s])
          | some t =>
              match read (frameNumber t fps) with
              | FrameOutcome.decoded =>
                  extractLoop fps read output_dir rest
                    (files ++ [frameFile output_dir t]) diags
              | FrameOutcome.notDecoded =>
                  extractLoop fps read output_dir rest files
                    (diags ++ [Diag.couldNotExtract s])

/-- Every observable outcome of one call to `extract_frames_from_video`:
the Python return value (or propagated exception), the files written (as
recorded in `extracted_files`), the printed diagnostics, whether
`cv2.VideoCapture` was constructed, and whether `video.release()` ran. -/
structure RunResult where
  ret : Except PyErr String
  extracted : List String
  diags : List Diag
  opened : Bool
  released : Bool

/-- Model of `extract_frames_from_video`, lines 112-158. `videoExists` models
`os.path.exists(video_path)`, `opensOk` models `video.isOpened()`, `read`
models the decode result per frame index, and `output_dir` models the
configured `EXTRACTED_IMAGES_DIR` (from `config.py`, not part of the
sources). -/
def extract_frames_from_video (videoExists opensOk : Bool) (fps : ℚ)
    (read : ℤ → FrameOutcome) (output_dir : String)
    (time_points : List TimePoint) : RunResult :=
  if videoExists = false then
    { ret := Except.error (PyErr.fileNotFoundError "The video file was not found."),
      extracted := [], diags := [], opened := false, released := false }
  else if opensOk = false then
    { ret := Except.error (PyErr.valueError "Could not open the video file."),
      extracted := [], diags := [], opened := true, released := false }
  else
    match extractLoop fps read output_dir time_points [] [] with
    | (files, diags, none) =>
        { ret := Except.ok output_dir, extracted := files, diags := diags,
          opened := true, released := true }
    | (files, diags, some e) =>
        { ret := Except.error e, extracted := files, diags := diags,
          opened := true, released := false }

/-- Model of `find_matched_captions`, lines 48-65. `similarityOf` models
`fuzz.partial_ratio` of the external `fuzzywuzzy` library (an integer score
in 0..100), `threshold` models the configured `THRESHOLD` (from `config.py`,
not part of the sources), and the caption mapping is the decoded JSON in its
iteration order. -/
def find_matched_captions (similarityOf : String → String → ℕ) (threshold : ℕ)
    (input_word : String) : List (String × String) → List String
  | [] => []
  | (scene_path, caption) :: rest =>
      if threshold ≤ similarityOf input_word.toLower caption.toLower then
        scene_path :: find_matched_captions similarityOf threshold input_word rest
      else
        find_matched_captions similarityOf threshold input_word rest

/-- The observable actions of the collage builders. -/
inductive Action
  | printed (msg : String)
  | wroteFile (path : String)
  | openedBrowser (path : String)
deriving DecidableEq

/-- Model of `create_collage`, lines 20-72, reduced to its observable actions: either
the empty-input notice (lines 37-39), or saving the collage to `output_file`
and printing the confirmation (lines 71-72). Image loading is modelled as
succeeding; resize/paste mutate only the in-memory canvas. The grid the
function computes is `collageCols`/`collageRows` above. -/
def create_collage (images_path_list : List String)
    (_collage_width _collage_height : ℕ) (output_file : String) : List Action :=
  if images_path_list.length = 0 then
    [Action.printed "No images found for the given search term."]
  else
    [Action.wroteFile output_file,
     Action.printed ("Collage created and saved to " ++ output_file)]

/-- Model of `generate_collage`, lines 4-18. -/
def generate_collage (images_path_list : List String) : List Action :=
  if images_path_list = [] then
    [Action.printed "No images found for the given search term."]
  else
    create_collage images_path_list 800 600 "collage.png" ++
      [Action.openedBrowser "collage.png"]

/-- The states the uploaded file reports. -/
inductive FileState
  | ACTIVE
  | PROCESSING
  | FAILED
deriving DecidableEq

/-- The constant assigned on line 64 (and printed, but never compared). -/
def max_retries : ℕ := 10

/-- The polling loop run against the stream of states the service reports:
`states 0` is the state right after upload, `states (k + 1)` the state seen
after the `k`-th `get_file` refresh. `pollLoop states fuel = some r` means
the loop exits after exactly `r` retries within `fuel` iterations; `none`
means it is still running after `fuel` iterations. The Python loop has no
fuel — the parameter only lets us inspect every finite prefix of the
execution. -/
def pollLoop (states : ℕ → FileState) : ℕ → Option ℕ
  | 0 => none
  | fuel + 1 =>
      if states 0 = FileState.ACTIVE then some 0
      else
        match pollLoop (fun k => states (k + 1)) fuel with
        | some r => some (r + 1)
        | none => none

/-! ## Theorems -/

theorem parseSum_of_forall₂ {fields : List (List Char)} {vals : List ℚ}
    (h : List.Forall₂ (fun f v => pyFloat f = some v) fields vals) :
    ∀ i, parseSum fields i = some (revValue vals i) := by
  induction h with
  | nil => intro i; rfl
  | cons hfv _ ih =>
      intro i
      simp only [parseSum, hfv, ih (i + 1), revValue]

theorem revValue_append (xs : List ℚ) (v : ℚ) (i : ℕ) :
    revValue (xs ++ [v]) i = revValue xs i + v * 60 ^ (i + xs.length) := by
  induction xs generalizing i with
  | nil => simp [revValue]
  | cons x xs ih =>
      simp only [List.cons_append, revValue, List.append_eq, ih, List.length_cons]
      rw [show i + 1 + xs.length = i + (xs.length + 1) by omega]
      ring

theorem revValue_reverse (vals : List ℚ) :
    revValue vals.reverse 0 = specTimeValue vals := by
  induction vals with
  | nil => rfl
  | cons v rest ih =>
      simp only [List.reverse_cons, revValue_append, ih, specTimeValue,
        List.length_reverse, Nat.zero_add]
      ring

theorem char_toNat_d0 : '0'.toNat = 48 := rfl

theorem char_toNat_d1 : '1'.toNat = 49 := rfl

theorem char_toNat_d2 : '2'.toNat = 50 := rfl

theorem char_toNat_d3 : '3'.toNat = 51 := rfl

theorem char_toNat_d4 : '4'.toNat = 52 := rfl

theorem char_toNat_d5 : '5'.toNat = 53 := rfl

theorem char_toNat_d6 : '6'.toNat = 54 := rfl

theorem char_toNat_d7 : '7'.toNat = 55 := rfl

theorem char_toNat_d8 : '8'.toNat = 56 := rfl

theorem char_toNat_d9 : '9'.toNat = 57 := rfl

/-- Claim C1. For every time-code string of one or more `':'`-separated numeric
fields, parsing returns the sum of each field's numeric value times 60 raised
to its position counted from the right (rightmost position 0); in particular
`parse("01:02:03.5")` equals `3723.5`, and a single field with no `':'` is
interpreted as pure seconds. -/
theorem parse_positional_weighting :
    (∀ (s : List Char) (fields : List (List Char)) (vals : List ℚ),
        s.splitOn ':' = fields →
        List.Forall₂ (fun f v => pyFloat f = some v) fields vals →
        parseTimePoint s = some (specTimeValue vals)) ∧
    parseTimePoint "01:02:03.5".data = some (7447 / 2) ∧
    (∀ (f : List Char) (v : ℚ), ':' ∉ f → pyFloat f = some v →
        parseTimePoint f = some v) := by
  refine ⟨?_, ?_, ?_⟩
  · intro s fields vals hsplit hvals
    unfold parseTimePoint
    rw [hsplit, parseSum_of_forall₂ (List.rel_reverse hvals), revValue_reverse]
  · norm_num +decide [parseTimePoint, parseSum, pyFloat, digitsToNat, String.data,
      List.splitOn, List.splitOnP_cons, List.splitOnP_nil, List.modifyHead,
      char_toNat_d0, char_toNat_d1, char_toNat_d2, char_toNat_d3, char_toNat_d5]
  · intro f v hf hv
    unfold parseTimePoint
    have hs : f.splitOn ':' = [f] := by
      apply List.splitOnP_eq_single
      intro x hx
      simp only [beq_iff_eq]
      intro hcontra
      exact hf (hcontra ▸ hx)
    rw [hs]
    simp [parseSum, hv]

/-- Witness for claim C1: the general positional statement applied to the
concrete two-field time code `"1:2"`, whose value is `1*60 + 2 = 62`. -/
theorem parse_positional_weighting_witness :
    parseTimePoint "1:2".data = some 62 := by
  have h := parse_positional_weighting.1 "1:2".data [['1'], ['2']] [1, 2]
    (by decide)
    (by
      refine List.Forall₂.cons ?_ (List.Forall₂.cons ?_ List.Forall₂.nil) <;>
        norm_num +decide [pyFloat, digitsToNat, List.splitOn, List.splitOnP_cons,
          List.splitOnP_nil, List.modifyHead, char_toNat_d1, char_toNat_d2])
  norm_num [specTimeValue] at h
  exact h

/-! ## Collage layout engine (`image_helpers.py`)

`create_collage`, lines 41-47:
```
if num_images == 1:
    cols = 1
else:
    cols = int(num_images ** 0.5) + 1
rows = (num_images // cols)
if num_images % cols:
    rows += 1
```
`int(num_images ** 0.5)` is the floor of the real square root, `Nat.sqrt`. -/

theorem collageCols_pos (n : ℕ) : 0 < collageCols n := by
  unfold collageCols
  split <;> omega

theorem ceil_div_mul_ge (n c : ℕ) (hc : 0 < c) :
    n ≤ (n / c + if n % c ≠ 0 then 1 else 0) * c := by
  by_cases hm : n % c = 0
  · simp only [hm, ne_eq, not_true_eq_false, if_false, add_zero]
    exact (Nat.div_mul_cancel (Nat.dvd_of_mod_eq_zero hm)).ge
  · simp only [ne_eq, hm, not_false_eq_true, if_true]
    have h2 := Nat.div_add_mod n c
    have h3 : n % c < c := Nat.mod_lt _ hc
    calc n = c * (n / c) + n % c := h2.symm
    _ ≤ c * (n / c) + c := by omega
    _ = (n / c + 1) * c := by ring

theorem sqrt_five : Nat.sqrt 5 = 2 := (Nat.eq_sqrt.2 (by norm_num)).symm

theorem sqrt_seven : Nat.sqrt 7 = 2 := (Nat.eq_sqrt.2 (by norm_num)).symm

theorem sqrt_ten : Nat.sqrt 10 = 3 := (Nat.eq_sqrt.2 (by norm_num)).symm

/-- Claim C2. For every image count `n ≥ 1` the collage grid is
`cols = 1` when `n = 1` and `floor (sqrt n) + 1` otherwise,
`rows = floor (n / cols)` incremented by 1 when `n % cols ≠ 0`, this grid
always satisfies `rows * cols ≥ n`, and the quoted instances
`n = 5 → (cols, rows) = (3, 2)`, `n = 1 → (1, 1)`, `n = 10 → (4, 3)` hold. -/
theorem collage_grid_covers (n : ℕ) (_h : 1 ≤ n) :
    n ≤ collageRows n * collageCols n ∧
    (collageCols 5 = 3 ∧ collageRows 5 = 2) ∧
    (collageCols 1 = 1 ∧ collageRows 1 = 1) ∧
    (collageCols 10 = 4 ∧ collageRows 10 = 3) := by
  refine ⟨ceil_div_mul_ge n (collageCols n) (collageCols_pos n), ?_, ?_, ?_⟩
  · constructor <;> norm_num [collageCols, collageRows, sqrt_five]
  · constructor <;> norm_num [collageCols, collageRows]
  · constructor <;> norm_num [collageCols, collageRows, sqrt_ten]

/-- Witness for claim C2: the covering inequality at the concrete count `n = 7`
(where the grid is 3 columns × 3 rows). -/
theorem collage_grid_covers_witness :
    1 ≤ 7 ∧ 7 ≤ collageRows 7 * collageCols 7 :=
  ⟨by norm_num, (collage_grid_covers 7 (by norm_num)).1⟩

/-! ## Frame extractor (`video_search_by_video.py`, `extract_frames_from_video`)

```
if not os.path.exists(video_path): raise FileNotFoundError(...)
output_dir = EXTRACTED_IMAGES_DIR
os.makedirs(output_dir, exist_ok=True)
video = cv2.VideoCapture(video_path)
if not video.isOpened(): raise ValueError(...)
frames_per_second = video.get(cv2.CAP_PROP_FPS)
extracted_files = []
for time_point in time_points:
    try:
        time_in_seconds = sum(float(x) * 60 ** i
                              for i, x in enumerate(reversed(time_point.split(':'))))
    except ValueError:
        print(f"Invalid time point: \x7btime_point\x7d. Skipping."); continue
    frame_number = int(time_in_seconds * frames_per_second)
    video.set(cv2.CAP_PROP_POS_FRAMES, frame_number)
    success, frame = video.read()
    if success:
        output_file = os.path.join(output_dir, f"frame_\x7bint(time_in_seconds)\x7ds.jpg")
        cv2.imwrite(output_file, frame)
        extracted_files.append(output_file)
    else:
        print(f"Warning: Could not extract frame at \x7btime_point\x7d.")
video.release()
return output_dir
```
The filesystem existence test, the capture-open test and the per-frame decode
result are behaviours of the environment, passed in as parameters. -/

theorem parse_one : parseTimePoint "1".data = some 1 := by
  norm_num +decide [parseTimePoint, parseSum, pyFloat, digitsToNat, String.data,
    List.splitOn, List.splitOnP_cons, List.splitOnP_nil, List.modifyHead,
    char_toNat_d1]

theorem parse_two : parseTimePoint "2".data = some 2 := by
  norm_num +decide [parseTimePoint, parseSum, pyFloat, digitsToNat, String.data,
    List.splitOn, List.splitOnP_cons, List.splitOnP_nil, List.modifyHead,
    char_toNat_d2]

theorem parse_ten : parseTimePoint "10".data = some 10 := by
  norm_num +decide [parseTimePoint, parseSum, pyFloat, digitsToNat, String.data,
    List.splitOn, List.splitOnP_cons, List.splitOnP_nil, List.modifyHead,
    char_toNat_d0, char_toNat_d1]

theorem parse_ten_point_two : parseTimePoint "10.2".data = some (51 / 5) := by
  norm_num +decide [parseTimePoint, parseSum, pyFloat, digitsToNat, String.data,
    List.splitOn, List.splitOnP_cons, List.splitOnP_nil, List.modifyHead,
    char_toNat_d0, char_toNat_d1, char_toNat_d2]

theorem parse_ten_point_seven : parseTimePoint "10.7".data = some (107 / 10) := by
  norm_num +decide [parseTimePoint, parseSum, pyFloat, digitsToNat, String.data,
    List.splitOn, List.splitOnP_cons, List.splitOnP_nil, List.modifyHead,
    char_toNat_d0, char_toNat_d1, char_toNat_d7]

/-- Claim C3, counterexample. The claim says the frame index is
`round(offset * frame_rate)`. At offset 1.9 s and frame rate 1 fps the code
computes `int(1.9 * 1) = 1`, while rounding to the nearest integer gives 2. -/
theorem frameNumber_not_round :
    frameNumber (19 / 10) 1 = 1 ∧ round ((19 / 10 : ℚ) * 1) = 2 ∧
    frameNumber (19 / 10) 1 ≠ round ((19 / 10 : ℚ) * 1) := by
  have h1 : frameNumber (19 / 10) 1 = 1 := by
    norm_num [frameNumber, pyTrunc, Int.floor_eq_iff]
  have h2 : round ((19 / 10 : ℚ) * 1) = 2 := by
    norm_num [round_eq, Int.floor_eq_iff]
  exact ⟨h1, h2, by rw [h1, h2]; decide⟩

/-- Claim C3, amended. For every successfully parsed time offset the frame
extractor computes the frame index as `int(offset * frame_rate)`, truncation
toward zero — equal to the floor whenever the product is non-negative — and
not by rounding to the nearest integer. -/
theorem frameNumber_eq_floor (t fps : ℚ) (h : 0 ≤ t * fps) :
    frameNumber t fps = ⌊t * fps⌋ := by
  simp [frameNumber, pyTrunc, h]

/-- Witness for claim C3 amended at offset 1.9 s, frame rate 1 fps. -/
theorem frameNumber_eq_floor_witness :
    0 ≤ (19 / 10 : ℚ) * 1 ∧ frameNumber (19 / 10) 1 = ⌊(19 / 10 : ℚ) * 1⌋ :=
  ⟨by norm_num, frameNumber_eq_floor (19 / 10) 1 (by norm_num)⟩

/-- Helper: on a batch of string time points the loop finishes without an
exception, and every offset contributes exactly one extracted file or one
diagnostic. -/
theorem extractLoop_strings (fps : ℚ) (read : ℤ → FrameOutcome) (d : String) :
    ∀ (tps : List TimePoint), (∀ tp ∈ tps, ∃ s, tp = TimePoint.str s) →
    ∀ (files : List String) (diags : List Diag),
      (extractLoop fps read d tps files diags).2.2 = none ∧
      (extractLoop fps read d tps files diags).1.length +
        (extractLoop fps read d tps files diags).2.1.length =
        files.length + diags.length + tps.length := by
  intro tps
  induction tps with
  | nil => intro _ files diags; simp [extractLoop]
  | cons tp rest ih =>
      intro hstr files diags
      obtain ⟨s, rfl⟩ := hstr tp (List.mem_cons_self tp rest)
      have hrest : ∀ tp ∈ rest, ∃ s, tp = TimePoint.str s :=
        fun tp htp => hstr tp (List.mem_cons_of_mem _ htp)
      cases hp : parseTimePoint s.data with
      | none =>
          have h := ih hrest files (diags ++ [Diag.invalidTimePoint s])
          obtain ⟨h1, h2⟩ := h
          simp only [List.length_append, List.length_cons, List.length_nil] at h2
          refine ⟨?_, ?_⟩
          · simpa only [extractLoop, hp] using h1
          · simp only [extractLoop, hp, List.length_cons]
            omega
      | some t =>
          cases hr : read (frameNumber t fps) with
          | decoded =>
              have h := ih hrest (files ++ [frameFile d t]) diags
              obtain ⟨h1, h2⟩ := h
              simp only [List.length_append, List.length_cons, List.length_nil] at h2
              refine ⟨?_, ?_⟩
              · simpa only [extractLoop, hp, hr] using h1
              · simp only [extractLoop, hp, hr, List.length_cons]
                omega
          | notDecoded =>
              have h := ih hrest files (diags ++ [Diag.couldNotExtract s])
              obtain ⟨h1, h2⟩ := h
              simp only [List.length_append, List.length_cons, List.length_nil] at h2
              refine ⟨?_, ?_⟩
              · simpa only [extractLoop, hp, hr] using h1
              · simp only [extractLoop, hp, hr, List.length_cons]
                omega

/-- Claim C5. For every batch whose video source exists and opens successfully,
a per-offset failure (a non-numeric time-code field or a decode failure)
produces a diagnostic for that offset and the batch continues, never raising
for the batch as a whole (every offset yields exactly one file or one
diagnostic); and a batch of one valid and one out-of-range offset yields
exactly one extracted frame and one reported failure. -/
theorem extract_batch_never_aborts :
    (∀ (fps : ℚ) (read : ℤ → FrameOutcome) (d : String) (tps : List TimePoint),
        (∀ tp ∈ tps, ∃ s, tp = TimePoint.str s) →
        (extract_frames_from_video true true fps read d tps).ret = Except.ok d ∧
        (extract_frames_from_video true true fps read d tps).extracted.length +
          (extract_frames_from_video true true fps read d tps).diags.length =
          tps.length) ∧
    (∀ (fps : ℚ) (read : ℤ → FrameOutcome) (d : String) (s₁ s₂ : String) (t₁ t₂ : ℚ),
        parseTimePoint s₁.data = some t₁ →
        parseTimePoint s₂.data = some t₂ →
        read (frameNumber t₁ fps) = FrameOutcome.decoded →
        read (frameNumber t₂ fps) = FrameOutcome.notDecoded →
        extract_frames_from_video true true fps read d
            [TimePoint.str s₁, TimePoint.str s₂] =
          { ret := Except.ok d, extracted := [frameFile d t₁],
            diags := [Diag.couldNotExtract s₂], opened := true,
            released := true }) := by
  constructor
  · intro fps read d tps hstr
    have h := extractLoop_strings fps read d tps hstr [] []
    rcases he : extractLoop fps read d tps [] [] with ⟨files, diags, err⟩
    rw [he] at h
    obtain ⟨hnone, hlen⟩ := h
    simp only at hnone
    subst hnone
    simp only [List.length_nil, Nat.zero_add] at hlen
    refine ⟨?_, ?_⟩
    · simp [extract_frames_from_video, he]
    · simp only [extract_frames_from_video, if_neg (by decide : ¬(true = false)), he]
      simpa using hlen
  · intro fps read d s₁ s₂ t₁ t₂ hp₁ hp₂ hr₁ hr₂
    simp [extract_frames_from_video, extractLoop, hp₁, hp₂, hr₁, hr₂]

/-- Witness for claim C5: a two-offset batch, `"1"` decodable and `"2"` not,
yields exactly one extracted file and one diagnostic. -/
theorem extract_batch_never_aborts_witness :
    parseTimePoint "1".data = some 1 ∧
    parseTimePoint "2".data = some 2 ∧
    (fun n => if n = 1 then FrameOutcome.decoded else FrameOutcome.notDecoded)
        (frameNumber 1 1) = FrameOutcome.decoded ∧
    (fun n => if n = 1 then FrameOutcome.decoded else FrameOutcome.notDecoded)
        (frameNumber 2 1) = FrameOutcome.notDecoded ∧
    extract_frames_from_video true true 1
        (fun n => if n = 1 then FrameOutcome.decoded else FrameOutcome.notDecoded)
        "out" [TimePoint.str "1", TimePoint.str "2"] =
      { ret := Except.ok "out", extracted := [frameFile "out" 1],
        diags := [Diag.couldNotExtract "2"], opened := true,
        released := true } := by
  have h₁ : frameNumber (1 : ℚ) 1 = 1 := by norm_num [frameNumber, pyTrunc]
  have h₂ : frameNumber (2 : ℚ) 1 = 2 := by norm_num [frameNumber, pyTrunc]
  refine ⟨parse_one, parse_two, by rw [h₁]; simp, by rw [h₂]; simp, ?_⟩
  exact extract_batch_never_aborts.2 1 _ "out" "1" "2" 1 2 parse_one parse_two
    (by rw [h₁]; simp) (by rw [h₂]; simp)

/-- Claim C4, counterexample. The claim says the extractor returns both the
output directory and the list of extracted file paths. Two runs with
different extracted-file lists (one frame versus none) have identical Python
return values, so the return value cannot carry the list: line 158 is
`return output_dir` alone (matching the docstring on lines 120-121). -/
theorem extract_return_drops_list :
    (extract_frames_from_video true true 1 (fun _ => FrameOutcome.decoded)
        "extracted_images" [TimePoint.str "10"]).ret =
      (extract_frames_from_video true true 1 (fun _ => FrameOutcome.decoded)
        "extracted_images" ([] : List TimePoint)).ret ∧
    (extract_frames_from_video true true 1 (fun _ => FrameOutcome.decoded)
        "extracted_images" [TimePoint.str "10"]).extracted ≠
      (extract_frames_from_video true true 1 (fun _ => FrameOutcome.decoded)
        "extracted_images" ([] : List TimePoint)).extracted := by
  have hp : parseTimePoint ['1', '0'] = some 10 := parse_ten
  constructor
  · simp [extract_frames_from_video, extractLoop, hp]
  · simp [extract_frames_from_video, extractLoop, hp]

/-- Claim C4, amended. After processing a batch of (string) offsets the frame
extractor returns only the output directory to its caller; the list of
successfully extracted file paths is kept in the local `extracted_files` and
is not part of the return value. -/
theorem extract_returns_dir_only (fps : ℚ) (read : ℤ → FrameOutcome)
    (d : String) (tps : List TimePoint)
    (hstr : ∀ tp ∈ tps, ∃ s, tp = TimePoint.str s) :
    (extract_frames_from_video true true fps read d tps).ret = Except.ok d := by
  have h := extractLoop_strings fps read d tps hstr [] []
  rcases he : extractLoop fps read d tps [] [] with ⟨files, diags, err⟩
  rw [he] at h
  have hnone : err = none := by simpa using h.1
  subst hnone
  simp [extract_frames_from_video, he]

/-- Witness for claim C4 amended on the one-offset batch `["10"]`. -/
theorem extract_returns_dir_only_witness :
    (∀ tp ∈ [TimePoint.str "10"], ∃ s, tp = TimePoint.str s) ∧
    (extract_frames_from_video true true 1 (fun _ => FrameOutcome.decoded)
        "extracted_images" [TimePoint.str "10"]).ret =
      Except.ok "extracted_images" :=
  ⟨by simp, extract_returns_dir_only 1 (fun _ => FrameOutcome.decoded)
      "extracted_images" [TimePoint.str "10"] (by simp)⟩

/-- Claim C8, counterexample. The claim says the video handle is released on
every exit path, including an exception raised partway through the offset
sequence. The loop body's `try` catches only `ValueError`; a non-string time
point (a JSON number from `json.loads`) raises `AttributeError` at
`time_point.split(':')`, which propagates past `video.release()` (line 157 is
not in a `finally`), leaving the opened handle unreleased. -/
theorem release_skipped_on_exception :
    (extract_frames_from_video true true 1 (fun _ => FrameOutcome.decoded)
        "extracted_images" [TimePoint.num 10]).opened = true ∧
    (extract_frames_from_video true true 1 (fun _ => FrameOutcome.decoded)
        "extracted_images" [TimePoint.num 10]).ret =
      Except.error (PyErr.attributeError "float object has no attribute split") ∧
    (extract_frames_from_video true true 1 (fun _ => FrameOutcome.decoded)
        "extracted_images" [TimePoint.num 10]).released = false := by
  refine ⟨?_, ?_, ?_⟩ <;> simp [extract_frames_from_video, extractLoop]

/-- Claim C8, amended. The video handle is released exactly on the normal
completion path: a batch of string offsets always ends with
`video.release()`, and conversely any run that released the handle returned
normally (so an exception propagating out of the loop, or the `ValueError`
raised when the capture does not open, exits without releasing). -/
theorem release_on_normal_exit_only :
    (∀ (fps : ℚ) (read : ℤ → FrameOutcome) (d : String) (tps : List TimePoint),
        (∀ tp ∈ tps, ∃ s, tp = TimePoint.str s) →
        (extract_frames_from_video true true fps read d tps).released = true) ∧
    (∀ (ve oo : Bool) (fps : ℚ) (read : ℤ → FrameOutcome) (d : String)
        (tps : List TimePoint),
        (extract_frames_from_video ve oo fps read d tps).released = true →
        (extract_frames_from_video ve oo fps read d tps).ret = Except.ok d) := by
  constructor
  · intro fps read d tps hstr
    have h := extractLoop_strings fps read d tps hstr [] []
    rcases he : extractLoop fps read d tps [] [] with ⟨files, diags, err⟩
    rw [he] at h
    have hnone : err = none := by simpa using h.1
    subst hnone
    simp [extract_frames_from_video, he]
  · intro ve oo fps read d tps hrel
    cases ve with
    | false => simp [extract_frames_from_video] at hrel
    | true =>
        cases oo with
        | false => simp [extract_frames_from_video] at hrel
        | true =>
            rcases he : extractLoop fps read d tps [] [] with ⟨files, diags, err⟩
            cases err with
            | none => simp [extract_frames_from_video, he]
            | some e =>
                rw [show extract_frames_from_video true true fps read d tps =
                    { ret := Except.error e, extracted := files, diags := diags,
                      opened := true, released := false } by
                  simp [extract_frames_from_video, he]] at hrel
                simp at hrel

/-- Witness for claim C8 amended: both halves at a concrete one-offset run. -/
theorem release_on_normal_exit_only_witness :
    (∀ tp ∈ [TimePoint.str "10"], ∃ s, tp = TimePoint.str s) ∧
    (extract_frames_from_video true true 1 (fun _ => FrameOutcome.decoded)
        "extracted_images" [TimePoint.str "10"]).released = true ∧
    (extract_frames_from_video true true 1 (fun _ => FrameOutcome.decoded)
        "extracted_images" [TimePoint.str "10"]).ret =
      Except.ok "extracted_images" :=
  ⟨by simp,
   release_on_normal_exit_only.1 1 (fun _ => FrameOutcome.decoded)
     "extracted_images" [TimePoint.str "10"] (by simp),
   release_on_normal_exit_only.2 true true 1 (fun _ => FrameOutcome.decoded)
     "extracted_images" [TimePoint.str "10"]
     (release_on_normal_exit_only.1 1 (fun _ => FrameOutcome.decoded)
       "extracted_images" [TimePoint.str "10"] (by simp))⟩

/-- Claim C10. The extracted-frame filename depends on the offset only through
`int(time_in_seconds)`: two distinct offsets with the same truncated
whole-seconds value map to the same file path, and a batch of two such
offsets appends that same path twice to `extracted_files` (the second write
overwrites the first file). -/
theorem duplicate_truncated_seconds_collide (fps : ℚ) (read : ℤ → FrameOutcome)
    (d : String) (s₁ s₂ : String) (t₁ t₂ : ℚ)
    (hp₁ : parseTimePoint s₁.data = some t₁)
    (hp₂ : parseTimePoint s₂.data = some t₂)
    (_hne : t₁ ≠ t₂) (htr : pyTrunc t₁ = pyTrunc t₂)
    (hr₁ : read (frameNumber t₁ fps) = FrameOutcome.decoded)
    (hr₂ : read (frameNumber t₂ fps) = FrameOutcome.decoded) :
    frameFile d t₁ = frameFile d t₂ ∧
    (extract_frames_from_video true true fps read d
        [TimePoint.str s₁, TimePoint.str s₂]).extracted =
      [frameFile d t₁, frameFile d t₁] := by
  have hf : frameFile d t₁ = frameFile d t₂ := by
    unfold frameFile
    rw [htr]
  refine ⟨hf, ?_⟩
  simp [extract_frames_from_video, extractLoop, hp₁, hp₂, hr₁, hr₂, ← hf]

/-- Witness for claim C10: offsets 10.2 s and 10.7 s are distinct but share the
truncated value 10, so both frames go to `frame_10s.jpg`. -/
theorem duplicate_truncated_seconds_collide_witness :
    (51 / 5 : ℚ) ≠ 107 / 10 ∧ pyTrunc (51 / 5) = pyTrunc (107 / 10) ∧
    frameFile "extracted_images" (51 / 5) = frameFile "extracted_images" (107 / 10) ∧
    (extract_frames_from_video true true 1 (fun _ => FrameOutcome.decoded)
        "extracted_images" [TimePoint.str "10.2", TimePoint.str "10.7"]).extracted =
      [frameFile "extracted_images" (51 / 5), frameFile "extracted_images" (51 / 5)] := by
  have hne : (51 / 5 : ℚ) ≠ 107 / 10 := by norm_num
  have htr : pyTrunc (51 / 5 : ℚ) = pyTrunc (107 / 10) := by
    norm_num [pyTrunc, Int.floor_eq_iff]
  have h := duplicate_truncated_seconds_collide 1 (fun _ => FrameOutcome.decoded)
    "extracted_images" "10.2" "10.7" (51 / 5) (107 / 10)
    parse_ten_point_two parse_ten_point_seven hne htr rfl rfl
  exact ⟨hne, htr, h.1, h.2⟩

/-! ## Fuzzy caption matcher (`video_search_by_image.py`, `find_matched_captions`)

```
matched_scenes = []
with open(json_file_path, 'r', encoding='utf-8') as f:
    scene_captions = json.load(f)
    for scene_path, caption in scene_captions.items():
        similarity = fuzz.partial_ratio(input_word.lower(), caption.lower())
        if similarity >= THRESHOLD:
            matched_scenes.append(scene_path)
return matched_scenes
```
-/

/-- Claim C6. For every fixed query and captions mapping the match result is
monotonic in the threshold: every scene identifier returned at threshold
`t₂ ≥ t₁` is also returned at threshold `t₁` — for any similarity scoring
function, in particular `fuzz.partial_ratio`. -/
theorem match_monotone_in_threshold (similarityOf : String → String → ℕ)
    (input_word : String) (captions : List (String × String)) (t₁ t₂ : ℕ)
    (h : t₁ ≤ t₂) (s : String)
    (hs : s ∈ find_matched_captions similarityOf t₂ input_word captions) :
    s ∈ find_matched_captions similarityOf t₁ input_word captions := by
  induction captions with
  | nil => simp [find_matched_captions] at hs
  | cons p rest ih =>
      obtain ⟨scene_path, caption⟩ := p
      simp only [find_matched_captions] at hs ⊢
      by_cases h₂ : t₂ ≤ similarityOf input_word.toLower caption.toLower
      · rw [if_pos h₂] at hs
        rw [if_pos (h.trans h₂)]
        rcases List.mem_cons.1 hs with heq | hmem
        · exact heq ▸ List.mem_cons_self _ _
        · exact List.mem_cons_of_mem _ (ih hmem)
      · rw [if_neg h₂] at hs
        by_cases h₁ : t₁ ≤ similarityOf input_word.toLower caption.toLower
        · rw [if_pos h₁]
          exact List.mem_cons_of_mem _ (ih hs)
        · rw [if_neg h₁]
          exact ih hs

/-- Witness for claim C6: with a constant similarity of 80, the scene matched
at threshold 70 is still matched after lowering the threshold to 50. -/
theorem match_monotone_in_threshold_witness :
    50 ≤ 70 ∧
    "a" ∈ find_matched_captions (fun _ _ => 80) 70 "mario"
        [("a", "super mario bros trailer")] ∧
    "a" ∈ find_matched_captions (fun _ _ => 80) 50 "mario"
        [("a", "super mario bros trailer")] :=
  ⟨by norm_num,
   by simp [find_matched_captions],
   match_monotone_in_threshold (fun _ _ => 80) "mario"
     [("a", "super mario bros trailer")] 50 70 (by norm_num) "a"
     (by simp [find_matched_captions])⟩

/-! ## Collage generation (`image_helpers.py`, `generate_collage`)

```
def generate_collage(images_path_list):
    if not images_path_list:
        print("No images found for the given search term.")
        return
    collage_width = 800
    collage_height = 600
    output_file = "collage.png"
    create_collage(images_path_list, collage_width, collage_height, output_file)
    webbrowser.open(output_file)
```
-/

/-- Claim C7. On an empty sequence of image paths the collage layout emits the
notice and nothing else: it writes no output file, opens no viewer, and (the
embedded function being total on this branch) raises no exception. -/
theorem layout_empty_noop :
    generate_collage [] =
      [Action.printed "No images found for the given search term."] := rfl

/-! ## Poll loop awaiting the ACTIVE file state (`chat_with_gemini`, lines 63-72)

```
max_retries = 10  # Adjust the maximum retries as needed
retries = 0
State = video_file.state.__class__
while video_file.state != State.ACTIVE:
    print(f"Waiting ... Retry \x7bretries + 1\x7d/\x7bmax_retries\x7d")
    time.sleep(15)
    video_file = genai.get_file(video_file.name)
    retries += 1
```
`max_retries` is assigned and printed but never tested: the loop condition
mentions only the file state. -/

/-- Claim C9, code bug. The claim says the poll loop performs a bounded number
of retries so the wait terminates even if the file never becomes ACTIVE. In
the code `max_retries = 10` is never consulted: against a file that stays
FAILED the loop is still running after every finite number of iterations,
and a file that first becomes ACTIVE on the 50th refresh makes the loop
perform 50 retries, far beyond `max_retries`. -/
theorem poll_loop_ignores_max_retries :
    (∀ fuel, pollLoop (fun _ => FileState.FAILED) fuel = none) ∧
    pollLoop (fun k => if k < 50 then FileState.PROCESSING else FileState.ACTIVE)
        51 = some 50 ∧
    max_retries = 10 := by
  refine ⟨?_, ?_, rfl⟩
  · intro fuel
    induction fuel with
    | zero => rfl
    | succ n ih => simp [pollLoop, ih]
  · decide

end VideoSearch
